import Mathlib

/-
Verification development for the `pathman` batch routing pipeline
(src/pathman.py).  The Python source is shallowly embedded: JSON-like
documents are association lists, the MongoDB client and the routing
provider are behaviour functions supplied by the environment (they may
raise, modelled with `Except`/`Option Err`), wall-clock time is a `Nat`
that advances while the provider runs, and every externally visible
action (a `find_path` call, a document insert, an error-log line, a
progress message) is recorded as an event in a `World` trace.
-/

set_option autoImplicit false

/-- Error value standing for a raised Python exception (its message). -/
abbrev Err := String

/-- Model of a Python float: an abstract value space.  The pipeline never
does arithmetic on coordinates, it only parses and forwards them, so any
infinite type with decidable equality is a faithful carrier. -/
abbrev Coord := Int

/-- JSON-like scalar values appearing in documents, plus the
`datetime.datetime` values produced by `datetime.datetime.utcnow()`
(carried as a `Nat` UTC timestamp). -/
inductive Value where
  | vnull : Value
  | vbool : Bool → Value
  | vint : Int → Value
  | vstr : String → Value
  | vdate : Nat → Value
  deriving DecidableEq, Repr

/-- A Python dict with string keys, as an association list in insertion
order (Python dicts preserve insertion order and have unique keys). -/
abbrev Doc := List (String × Value)

/-- Python dict item assignment `d[k] = v`: replace the value of an
existing key in place, otherwise append the new pair at the end. -/
def Doc.set : Doc → String → Value → Doc
  | [], k, v => [(k, v)]
  | (k', v') :: rest, k, v =>
    if k' = k then (k', v) :: rest else (k', v') :: Doc.set rest k v

/-- Python dict lookup `d[k]` (as an option): first matching key. -/
def Doc.get? : Doc → String → Option Value
  | [], _ => none
  | (k', v') :: rest, k => if k' = k then some v' else Doc.get? rest k

/-- One row produced by `csv.DictReader`: field name to raw string. -/
abbrev Row := List (String × String)

/-- Lookup of a CSV field by column name; `none` models a `KeyError`. -/
def Row.get? : Row → String → Option String
  | [], _ => none
  | (k', v') :: rest, k => if k' = k then some v' else Row.get? rest k

/-- An origin/destination record as built by `main` from one CSV row. -/
structure OdPair where
  id : Int
  o_x : Coord
  o_y : Coord
  d_x : Coord
  d_y : Coord
  deriving DecidableEq, Repr

/-- The textual representation `str(od)` that the batch driver appends to
`errors.txt` for a failing record: the Python dict rendering of the five
fields in insertion order. -/
def OdPair.pyStr (od : OdPair) : String :=
  "\x7b\x27id\x27: " ++ toString od.id ++
  ", \x27o_x\x27: " ++ toString od.o_x ++
  ", \x27o_y\x27: " ++ toString od.o_y ++
  ", \x27d_x\x27: " ++ toString od.d_x ++
  ", \x27d_y\x27: " ++ toString od.d_y ++ "\x7d"

/-- Externally visible actions of one run, recorded in order. -/
inductive Event where
  | findPath : Coord → Coord → Coord → Coord → Option Doc → Event
  | insert : String → String → Doc → Event
  | errLine : String → Event
  | progress : Nat → Nat → Event
  deriving DecidableEq, Repr

/-- Observable state: the UTC clock and the trace of events so far.  The
`events` already present at the start of a run model the effects of
earlier runs (for instance earlier `errors.txt` lines). -/
structure World where
  now : Nat
  events : List Event
  deriving DecidableEq, Repr

/-- The `find_path` calls recorded in a trace, with their arguments. -/
def findPathEvents (evs : List Event) :
    List (Coord × Coord × Coord × Coord × Option Doc) :=
  evs.filterMap fun e =>
    match e with
    | .findPath a b c d p => some (a, b, c, d, p)
    | _ => none

/-- The document inserts recorded in a trace: database name, collection
name and inserted document. -/
def insertEvents (evs : List Event) : List (String × String × Doc) :=
  evs.filterMap fun e =>
    match e with
    | .insert db cn d => some (db, cn, d)
    | _ => none

/-- The error-log lines recorded in a trace, in order of writing. -/
def errLineEvents (evs : List Event) : List String :=
  evs.filterMap fun e =>
    match e with
    | .errLine s => some s
    | _ => none

/-- Outcome of one provider round-trip: how long the call took (the
clock advances by `elapsed`) and either the returned route document
(`none` models Python `None`) or a raised exception. -/
structure FindPathOutcome where
  elapsed : Nat
  result : Except Err (Option Doc)

/-- A routing service instance produced by `RoutingServiceFactory`: its
class name (`router.__class__.__name__`) and the behaviour of its
`find_path(source_x, source_y, target_x, target_y, params)` method.  The
trailing `Nat` argument is the current UTC time, through which arbitrary
external state (e.g. transient network faults) may influence a call. -/
structure Router where
  className : String
  find_path : Coord → Coord → Coord → Coord → Option Doc → Nat → FindPathOutcome

/-- A `pymongo.MongoClient`: the behaviour of `insert_one` on a given
database name, collection name and document at a given time; `some e`
models a raised exception, `none` a successful write. -/
structure MongoClient where
  insert_err : String → String → Doc → Nat → Option Err

/-- A collection handle `client[db_name][name]` as obtained in
`crawl_route` via `db = mongo.pathman; paths = db[...]`. -/
structure Collection where
  client : MongoClient
  dbName : String
  name : String

/-- `save_route_to(route, collection)`: `collection.insert_one(route)`.
On success the insert is recorded in the trace; a raised exception is
returned as `some e` with no document persisted. -/
def save_route_to (route : Doc) (collection : Collection) (w : World) :
    World × Option Err :=
  match collection.client.insert_err collection.dbName collection.name route w.now with
  | some e => (w, some e)
  | none =>
    ({ w with events := w.events ++ [Event.insert collection.dbName collection.name route] },
     none)

/-- `crawl_route(router, source_x, source_y, target_x, target_y, mongo,
params, custom_id)`: invoke `find_path`, substitute `{}` for a `None`
result, stamp `res["date"] = datetime.datetime.utcnow()` and
`res["cid"] = custom_id`, and persist into the `pathman` database,
collection named after the router class.  Exceptions from the provider
or from the insert are returned in the second component (uncaught). -/
def crawl_route (router : Router) (source_x source_y target_x target_y : Coord)
    (mongo : MongoClient) (params : Option Doc) (custom_id : Int) (w : World) :
    World × Option Err :=
  let out := router.find_path source_x source_y target_x target_y params w.now
  let w1 : World :=
    { now := w.now + out.elapsed,
      events := w.events ++ [Event.findPath source_x source_y target_x target_y params] }
  match out.result with
  | .error e => (w1, some e)
  | .ok r =>
    let res := r.getD []
    let paths : Collection := { client := mongo, dbName := "pathman", name := router.className }
    let res := (Doc.set res "date" (Value.vdate w1.now)).set "cid" (Value.vint custom_id)
    save_route_to res paths w1

/-- The per-record loop of `main` (lines 179–191): for each OD pair in
order, print the progress counter, attempt `crawl_route`, and on any
exception append `str(od)` as one line to `errors.txt` and continue with
the next record. -/
def process_pairs (router : Router) (mongo : MongoClient) (params : Option Doc)
    (total : Nat) : List OdPair → Nat → World → World
  | [], _, w => w
  | od :: rest, i, w =>
    let w1 : World := { w with events := w.events ++ [Event.progress (i + 1) total] }
    let step := crawl_route router od.o_x od.o_y od.d_x od.d_y mongo params od.id w1
    let w3 : World :=
      match step.2 with
      | none => step.1
      | some _ => { step.1 with events := step.1.events ++ [Event.errLine od.pyStr] }
    process_pairs router mongo params total rest (i + 1) w3

/-- The same loop, additionally returning the per-record outcome
(`none` = crawl succeeded, `some e` = the crawl step raised `e`); used
only to state which records of a run failed.  Its first component is
proved equal to `process_pairs`. -/
def process_outcomes (router : Router) (mongo : MongoClient) (params : Option Doc)
    (total : Nat) : List OdPair → Nat → World → World × List (OdPair × Option Err)
  | [], _, w => (w, [])
  | od :: rest, i, w =>
    let w1 : World := { w with events := w.events ++ [Event.progress (i + 1) total] }
    let step := crawl_route router od.o_x od.o_y od.d_x od.d_y mongo params od.id w1
    let w3 : World :=
      match step.2 with
      | none => step.1
      | some _ => { step.1 with events := step.1.events ++ [Event.errLine od.pyStr] }
    let rec_rest := process_outcomes router mongo params total rest (i + 1) w3
    (rec_rest.1, (od, step.2) :: rec_rest.2)

/-- The command-line arguments as delivered by `docopt` (defaults
already filled in: `-o` always carries a string, `-x` is optional). -/
structure Args where
  r : String
  p : String
  i : String
  o : String
  x : Option String
  verbose : Bool
  deriving DecidableEq, Repr

/-- The parsed content of `appconf.json`: the configured router and
profile names. -/
structure AppConf where
  routers : List String
  profiles : List String
  deriving DecidableEq, Repr

/-- The external world `main` runs against: the filesystem (path to file
content, `none` = file absent), the behaviour of the external `csv`,
`json`, `int` and `float` parsers (`none` = the call raises), the parsed
`appconf.json`, the `RoutingServiceFactory` of the `rap` package, and
`MongoClient` construction from a connection string. -/
structure Env where
  fs : String → Option String
  csvOf : String → List Row
  jsonOf : String → Option Doc
  pyInt : String → Option Int
  pyFloat : String → Option Coord
  appconf : AppConf
  factory : String → String → Router
  mongoOf : String → MongoClient

/-- Python `str.lower` (the arguments are ASCII identifiers and URLs). -/
def pyLower (s : String) : String := String.mk (s.data.map Char.toLower)

/-- Helper for `pyStartsWith`: character-list prefix test. -/
def charsStartWith : List Char → List Char → Bool
  | _, [] => true
  | [], _ :: _ => false
  | c :: cs, p :: ps => (c = p) && charsStartWith cs ps

/-- Python `str.startswith`. -/
def pyStartsWith (s pre : String) : Bool := charsStartWith s.data pre.data

/-- `validate_arguments(raw_args, conf)`: the `Schema` checks of
lines 78–112 — `-r` lowercased must be a configured router, `-p`
lowercased a configured profile, `-i` an existing file, `-o` must start
with `mongodb://` (case-insensitively), `-x` absent or an existing
file.  `Use(str.lower)` replaces `-r` and `-p` by their lowercase forms
in the validated result.  A `SchemaError` makes the process exit
(`exit(err)`), modelled as `Except.error`. -/
def validate_arguments (fs : String → Option String) (raw : Args) (conf : AppConf) :
    Except Err Args :=
  if pyLower raw.r ∈ conf.routers then
    if pyLower raw.p ∈ conf.profiles then
      if (fs raw.i).isSome then
        if pyStartsWith (pyLower raw.o) "mongodb://" then
          match raw.x with
          | none =>
            Except.ok { raw with r := pyLower raw.r, p := pyLower raw.p }
          | some xp =>
            if (fs xp).isSome then
              Except.ok { raw with r := pyLower raw.r, p := pyLower raw.p }
            else
              Except.error ("Parameters file " ++ xp ++ " does not exist")
        else
          Except.error (raw.o ++ " is not a valid mongodb connection string")
      else
        Except.error ("INPUT_FILE file " ++ raw.i ++ " does not exist")
    else
      Except.error ("PROFILE should be one of " ++ String.intercalate ", " conf.profiles)
  else
    Except.error ("ROUTER should be one of " ++ String.intercalate ", " conf.routers)

/-- The per-row body of the input loop (lines 164–171): build one OD
pair from a `DictReader` row.  A missing column is a `KeyError`, a
string `int()`/`float()` cannot parse is a `ValueError`; either raises
and aborts the whole load (the spec groups both as
`MalformedInputError`). -/
def row_to_od (pyInt : String → Option Int) (pyFloat : String → Option Coord)
    (r : Row) : Except Err OdPair :=
  match r.get? "id" with
  | none => Except.error "KeyError: id"
  | some sid =>
    match pyInt sid with
    | none => Except.error ("ValueError: " ++ sid)
    | some vid =>
      match r.get? "start_lon" with
      | none => Except.error "KeyError: start_lon"
      | some s1 =>
        match pyFloat s1 with
        | none => Except.error ("ValueError: " ++ s1)
        | some ox =>
          match r.get? "start_lat" with
          | none => Except.error "KeyError: start_lat"
          | some s2 =>
            match pyFloat s2 with
            | none => Except.error ("ValueError: " ++ s2)
            | some oy =>
              match r.get? "end_lon" with
              | none => Except.error "KeyError: end_lon"
              | some s3 =>
                match pyFloat s3 with
                | none => Except.error ("ValueError: " ++ s3)
                | some dx =>
                  match r.get? "end_lat" with
                  | none => Except.error "KeyError: end_lat"
                  | some s4 =>
                    match pyFloat s4 with
                    | none => Except.error ("ValueError: " ++ s4)
                    | some dy =>
                      Except.ok { id := vid, o_x := ox, o_y := oy, d_x := dx, d_y := dy }

/-- The input loop of `main` (lines 159–171): append one OD pair per
row in file order; the first raising row aborts the whole load with its
exception (no partial-row recovery). -/
def load_od_pairs (pyInt : String → Option Int) (pyFloat : String → Option Coord) :
    List Row → Except Err (List OdPair)
  | [] => Except.ok []
  | r :: rest =>
    match row_to_od pyInt pyFloat r with
    | Except.error e => Except.error e
    | Except.ok od =>
      match load_od_pairs pyInt pyFloat rest with
      | Except.error e => Except.error e
      | Except.ok ods => Except.ok (od :: ods)

/-- The parameter-loading step of `main` (lines 172–177): with no `-x`
argument the params are the sentinel `None`; otherwise the file is
opened (an absent file raises an `IOError`) and `json.load`-parsed (bad
content raises, the spec calls it `ParamsLoadError`). -/
def load_params (env : Env) (x : Option String) : Except Err (Option Doc) :=
  match x with
  | none => Except.ok none
  | some p =>
    match env.fs p with
    | none => Except.error ("IOError: " ++ p)
    | some content =>
      match env.jsonOf content with
      | none => Except.error "ParamsLoadError: json.JSONDecodeError"
      | some d => Except.ok (some d)

/-- `main()` after `docopt` (lines 152–191): validate the arguments
against `appconf.json`, build the router, load the OD pairs from the
input CSV, load the optional extra parameters, connect the Mongo
client, then run the per-record loop.  Any setup or load failure
terminates the process before the loop, leaving the world unchanged;
the second component is `some e` exactly when the process died with an
uncaught exception (or `exit`). -/
def Pathman.main (env : Env) (raw : Args) (w0 : World) : World × Option Err :=
  match validate_arguments env.fs raw env.appconf with
  | Except.error e => (w0, some e)
  | Except.ok args =>
    let router := env.factory args.r args.p
    match env.fs args.i with
    | none => (w0, some ("IOError: " ++ args.i))
    | some content =>
      match load_od_pairs env.pyInt env.pyFloat (env.csvOf content) with
      | Except.error e => (w0, some e)
      | Except.ok od_pairs =>
        match load_params env args.x with
        | Except.error e => (w0, some e)
        | Except.ok params =>
          let mongo := env.mongoOf args.o
          (process_pairs router mongo params od_pairs.length od_pairs 0 w0, none)

/-- A concrete document as a provider could return it. -/
def sampleRouteDoc : Doc := [("distance", Value.vint 1200)]

/-- A provider whose result document already carries `date` and `cid`
keys of its own. -/
def dirtyRouteDoc : Doc :=
  [("date", Value.vstr "provider-date"), ("cid", Value.vint 99), ("distance", Value.vint 5)]

/-- A router that always finds `sampleRouteDoc` after one clock tick. -/
def okRouter : Router :=
  { className := "MapboxRouter",
    find_path := fun _ _ _ _ _ _ => { elapsed := 1, result := Except.ok (some sampleRouteDoc) } }

/-- A router that succeeds but finds no path (Python `None`). -/
def noneRouter : Router :=
  { className := "MapboxRouter",
    find_path := fun _ _ _ _ _ _ => { elapsed := 1, result := Except.ok none } }

/-- A router whose `find_path` always raises a timeout. -/
def errRouter : Router :=
  { className := "MapboxRouter",
    find_path := fun _ _ _ _ _ _ => { elapsed := 1, result := Except.error "Timeout" } }

/-- A router returning `dirtyRouteDoc`, provider-chosen `date`/`cid`
included. -/
def dirtyRouter : Router :=
  { className := "MapboxRouter",
    find_path := fun _ _ _ _ _ _ => { elapsed := 1, result := Except.ok (some dirtyRouteDoc) } }

/-- A Mongo client whose inserts always succeed. -/
def okMongo : MongoClient := { insert_err := fun _ _ _ _ => none }

/-- A Mongo client whose inserts always raise. -/
def errMongo : MongoClient := { insert_err := fun _ _ _ _ => some "WriteError" }

/-- An initial world with an empty trace. -/
def sampleW0 : World := { now := 100, events := [] }

/-- A concrete OD pair. -/
def odA : OdPair := { id := 1, o_x := 13, o_y := 52, d_x := 14, d_y := 53 }

/-- A second concrete OD pair. -/
def odB : OdPair := { id := 2, o_x := 8, o_y := 48, d_x := 9, d_y := 49 }

/-- The well-formed CSV row for `odA`. -/
def rowA : Row :=
  [("id", "1"), ("start_lon", "13"), ("start_lat", "52"), ("end_lon", "14"), ("end_lat", "53")]

/-- The well-formed CSV row for `odB`. -/
def rowB : Row :=
  [("id", "2"), ("start_lon", "8"), ("start_lat", "48"), ("end_lon", "9"), ("end_lat", "49")]

/-- A malformed CSV row: the required `id` column is missing. -/
def rowMissingId : Row :=
  [("start_lon", "13"), ("start_lat", "52"), ("end_lon", "14"), ("end_lat", "53")]

/-- Concrete integer parsing for the sample environment. -/
def samplePyInt (s : String) : Option Int :=
  if s = "1" then some 1 else if s = "2" then some 2 else none

/-- Concrete float parsing for the sample environment. -/
def samplePyFloat (s : String) : Option Coord :=
  if s = "13" then some 13 else if s = "52" then some 52 else
  if s = "14" then some 14 else if s = "53" then some 53 else
  if s = "8" then some 8 else if s = "48" then some 48 else
  if s = "9" then some 9 else if s = "49" then some 49 else none

/-- The parsed extra-parameters document of the sample environment. -/
def sampleParamsDoc : Doc := [("alternatives", Value.vbool true)]

/-- A concrete environment: one input CSV with two good rows, one JSON
parameters file, one configured router and profile. -/
def sampleEnv : Env :=
  { fs := fun p =>
      if p = "input.csv" then some "CSVDATA"
      else if p = "params.json" then some "PARAMSJSON"
      else none,
    csvOf := fun _ => [rowA, rowB],
    jsonOf := fun c => if c = "PARAMSJSON" then some sampleParamsDoc else none,
    pyInt := samplePyInt,
    pyFloat := samplePyFloat,
    appconf := { routers := ["mapbox"], profiles := ["walking"] },
    factory := fun _ _ => okRouter,
    mongoOf := fun _ => okMongo }

/-- The sample environment with a malformed input file: its second CSV
row is missing the `id` column. -/
def badCsvEnv : Env :=
  { sampleEnv with csvOf := fun _ => [rowA, rowMissingId] }

/-- Concrete command-line arguments accepted by the sample environment. -/
def sampleArgs : Args :=
  { r := "mapbox", p := "walking", i := "input.csv",
    o := "mongodb://localhost:27017/", x := some "params.json", verbose := false }

/-- Concrete command-line arguments selecting an unconfigured router. -/
def badRouterArgs : Args := { sampleArgs with r := "google" }

theorem Doc.get_set_self (d : Doc) (k : String) (v : Value) :
    Doc.get? (Doc.set d k v) k = some v := by
  induction d with
  | nil => simp [Doc.set, Doc.get?]
  | cons hd tl ih =>
    obtain ⟨k', v'⟩ := hd
    by_cases h : k' = k
    · simp [Doc.set, Doc.get?, h]
    · simp [Doc.set, Doc.get?, h, ih]

theorem Doc.get_set_of_ne (d : Doc) (k k' : String) (v : Value) (h : k ≠ k') :
    Doc.get? (Doc.set d k v) k' = Doc.get? d k' := by
  induction d with
  | nil => simp [Doc.set, Doc.get?, h]
  | cons hd tl ih =>
    obtain ⟨k0, v0⟩ := hd
    by_cases h0 : k0 = k
    · subst h0
      simp [Doc.set, Doc.get?, h]
    · simp [Doc.set, Doc.get?, h0, ih]

theorem findPathEvents_append (a b : List Event) :
    findPathEvents (a ++ b) = findPathEvents a ++ findPathEvents b := by
  simp [findPathEvents]

theorem insertEvents_append (a b : List Event) :
    insertEvents (a ++ b) = insertEvents a ++ insertEvents b := by
  simp [insertEvents]

theorem errLineEvents_append (a b : List Event) :
    errLineEvents (a ++ b) = errLineEvents a ++ errLineEvents b := by
  simp [errLineEvents]

theorem save_route_to_of_err {c : Collection} {route : Doc} {w : World} {e : Err}
    (h : c.client.insert_err c.dbName c.name route w.now = some e) :
    save_route_to route c w = (w, some e) := by
  simp [save_route_to, h]

theorem save_route_to_of_ok {c : Collection} {route : Doc} {w : World}
    (h : c.client.insert_err c.dbName c.name route w.now = none) :
    save_route_to route c w =
      ({ w with events := w.events ++ [Event.insert c.dbName c.name route] }, none) := by
  simp [save_route_to, h]

theorem findPathEvents_cons_findPath (a b c d : Coord) (p : Option Doc) (l : List Event) :
    findPathEvents (Event.findPath a b c d p :: l) = (a, b, c, d, p) :: findPathEvents l := rfl

theorem findPathEvents_cons_insert (db cn : String) (doc : Doc) (l : List Event) :
    findPathEvents (Event.insert db cn doc :: l) = findPathEvents l := rfl

theorem findPathEvents_cons_errLine (s : String) (l : List Event) :
    findPathEvents (Event.errLine s :: l) = findPathEvents l := rfl

theorem findPathEvents_cons_progress (a b : Nat) (l : List Event) :
    findPathEvents (Event.progress a b :: l) = findPathEvents l := rfl

theorem errLineEvents_cons_findPath (a b c d : Coord) (p : Option Doc) (l : List Event) :
    errLineEvents (Event.findPath a b c d p :: l) = errLineEvents l := rfl

theorem errLineEvents_cons_insert (db cn : String) (doc : Doc) (l : List Event) :
    errLineEvents (Event.insert db cn doc :: l) = errLineEvents l := rfl

theorem errLineEvents_cons_errLine (s : String) (l : List Event) :
    errLineEvents (Event.errLine s :: l) = s :: errLineEvents l := rfl

theorem errLineEvents_cons_progress (a b : Nat) (l : List Event) :
    errLineEvents (Event.progress a b :: l) = errLineEvents l := rfl

theorem insertEvents_cons_findPath (a b c d : Coord) (p : Option Doc) (l : List Event) :
    insertEvents (Event.findPath a b c d p :: l) = insertEvents l := rfl

theorem insertEvents_cons_insert (db cn : String) (doc : Doc) (l : List Event) :
    insertEvents (Event.insert db cn doc :: l) = (db, cn, doc) :: insertEvents l := rfl

theorem insertEvents_cons_errLine (s : String) (l : List Event) :
    insertEvents (Event.errLine s :: l) = insertEvents l := rfl

theorem insertEvents_cons_progress (a b : Nat) (l : List Event) :
    insertEvents (Event.progress a b :: l) = insertEvents l := rfl

theorem crawl_route_of_find_err {router : Router} {sx sy tx ty : Coord}
    {m : MongoClient} {p : Option Doc} {cid : Int} {w : World} {e : Err}
    (h : (router.find_path sx sy tx ty p w.now).result = Except.error e) :
    crawl_route router sx sy tx ty m p cid w =
      ({ now := w.now + (router.find_path sx sy tx ty p w.now).elapsed,
         events := w.events ++ [Event.findPath sx sy tx ty p] }, some e) := by
  simp only [crawl_route]
  rw [h]

theorem crawl_route_of_find_ok {router : Router} {sx sy tx ty : Coord}
    {m : MongoClient} {p : Option Doc} {cid : Int} {w : World} {r : Option Doc}
    (h : (router.find_path sx sy tx ty p w.now).result = Except.ok r) :
    crawl_route router sx sy tx ty m p cid w =
      save_route_to
        (Doc.set
          (Doc.set (r.getD []) "date"
            (Value.vdate (w.now + (router.find_path sx sy tx ty p w.now).elapsed)))
          "cid" (Value.vint cid))
        { client := m, dbName := "pathman", name := router.className }
        { now := w.now + (router.find_path sx sy tx ty p w.now).elapsed,
          events := w.events ++ [Event.findPath sx sy tx ty p] } := by
  simp only [crawl_route]
  rw [h]

theorem crawl_route_trace (router : Router) (sx sy tx ty : Coord)
    (m : MongoClient) (p : Option Doc) (cid : Int) (w : World) :
    ∃ tail,
      ((crawl_route router sx sy tx ty m p cid w).1).events
        = w.events ++ Event.findPath sx sy tx ty p :: tail
      ∧ findPathEvents tail = []
      ∧ errLineEvents tail = []
      ∧ ∀ db cn d, Event.insert db cn d ∈ tail →
          db = "pathman" ∧ cn = router.className
          ∧ Doc.get? d "cid" = some (Value.vint cid)
          ∧ ∃ t, Doc.get? d "date" = some (Value.vdate t) ∧ w.now ≤ t := by
  cases hres : (router.find_path sx sy tx ty p w.now).result with
  | error e =>
    refine ⟨[], ?_, rfl, rfl, ?_⟩
    · rw [crawl_route_of_find_err hres]
    · intro db cn d hmem
      cases hmem
  | ok r =>
    rw [crawl_route_of_find_ok hres]
    cases hins : m.insert_err "pathman" router.className
        (Doc.set
          (Doc.set (r.getD []) "date"
            (Value.vdate (w.now + (router.find_path sx sy tx ty p w.now).elapsed)))
          "cid" (Value.vint cid))
        (w.now + (router.find_path sx sy tx ty p w.now).elapsed) with
    | some e =>
      refine ⟨[], ?_, rfl, rfl, ?_⟩
      · simp [save_route_to, hins]
      · intro db cn d hmem
        cases hmem
    | none =>
      refine ⟨[Event.insert "pathman" router.className
        (Doc.set
          (Doc.set (r.getD []) "date"
            (Value.vdate (w.now + (router.find_path sx sy tx ty p w.now).elapsed)))
          "cid" (Value.vint cid))], ?_, rfl, rfl, ?_⟩
      · simp [save_route_to, hins]
      · intro db cn d hmem
        rw [List.mem_singleton] at hmem
        cases hmem
        refine ⟨rfl, rfl, ?_, ?_⟩
        · exact Doc.get_set_self _ "cid" (Value.vint cid)
        · refine ⟨w.now + (router.find_path sx sy tx ty p w.now).elapsed, ?_, Nat.le_add_right _ _⟩
          rw [Doc.get_set_of_ne _ "cid" "date" _ (by decide)]
          exact Doc.get_set_self _ "date" _

theorem process_pairs_trace (router : Router) (m : MongoClient) (p : Option Doc)
    (total : Nat) (ods : List OdPair) : ∀ (i : Nat) (w : World),
    ∃ Δ, (process_pairs router m p total ods i w).events = w.events ++ Δ
      ∧ findPathEvents Δ = ods.map (fun od => (od.o_x, od.o_y, od.d_x, od.d_y, p)) := by
  induction ods with
  | nil =>
    intro i w
    refine ⟨[], ?_, rfl⟩
    simp [process_pairs]
  | cons od rest ih =>
    intro i w
    obtain ⟨tail, htail, hfpt, -, -⟩ :=
      crawl_route_trace router od.o_x od.o_y od.d_x od.d_y m p od.id
        { w with events := w.events ++ [Event.progress (i + 1) total] }
    cases h2 : (crawl_route router od.o_x od.o_y od.d_x od.d_y m p od.id
        { w with events := w.events ++ [Event.progress (i + 1) total] }).2 with
    | none =>
      obtain ⟨Δ', hΔ', hfp'⟩ := ih (i + 1)
        ((crawl_route router od.o_x od.o_y od.d_x od.d_y m p od.id
          { w with events := w.events ++ [Event.progress (i + 1) total] }).1)
      refine ⟨Event.progress (i + 1) total ::
        Event.findPath od.o_x od.o_y od.d_x od.d_y p :: (tail ++ Δ'), ?_, ?_⟩
      · have hstep : process_pairs router m p total (od :: rest) i w
            = process_pairs router m p total rest (i + 1)
              ((crawl_route router od.o_x od.o_y od.d_x od.d_y m p od.id
                { w with events := w.events ++ [Event.progress (i + 1) total] }).1) := by
          simp only [process_pairs, h2]
        rw [hstep, hΔ', htail]
        simp
      · simp [findPathEvents_cons_progress, findPathEvents_cons_findPath,
          findPathEvents_append, hfpt, hfp']
    | some e =>
      obtain ⟨Δ', hΔ', hfp'⟩ := ih (i + 1)
        { (crawl_route router od.o_x od.o_y od.d_x od.d_y m p od.id
            { w with events := w.events ++ [Event.progress (i + 1) total] }).1 with
          events := ((crawl_route router od.o_x od.o_y od.d_x od.d_y m p od.id
            { w with events := w.events ++ [Event.progress (i + 1) total] }).1).events
            ++ [Event.errLine od.pyStr] }
      refine ⟨Event.progress (i + 1) total ::
        Event.findPath od.o_x od.o_y od.d_x od.d_y p :: (tail ++ [Event.errLine od.pyStr] ++ Δ'), ?_, ?_⟩
      · have hstep : process_pairs router m p total (od :: rest) i w
            = process_pairs router m p total rest (i + 1)
              { (crawl_route router od.o_x od.o_y od.d_x od.d_y m p od.id
                  { w with events := w.events ++ [Event.progress (i + 1) total] }).1 with
                events := ((crawl_route router od.o_x od.o_y od.d_x od.d_y m p od.id
                  { w with events := w.events ++ [Event.progress (i + 1) total] }).1).events
                  ++ [Event.errLine od.pyStr] } := by
          simp only [process_pairs, h2]
        rw [hstep, hΔ']
        simp only [htail]
        simp
      · simp [findPathEvents_cons_progress, findPathEvents_cons_findPath,
          findPathEvents_append, findPathEvents_cons_errLine, hfpt, hfp']

theorem load_od_pairs_length (pyInt : String → Option Int) (pyFloat : String → Option Coord) :
    ∀ (rows : List Row) (ods : List OdPair),
    load_od_pairs pyInt pyFloat rows = Except.ok ods → ods.length = rows.length := by
  intro rows
  induction rows with
  | nil =>
    intro ods h
    cases h
    rfl
  | cons r rest ih =>
    intro ods h
    simp only [load_od_pairs] at h
    cases hr : row_to_od pyInt pyFloat r with
    | error e => rw [hr] at h; cases h
    | ok od =>
      rw [hr] at h
      cases hrest : load_od_pairs pyInt pyFloat rest with
      | error e => rw [hrest] at h; cases h
      | ok ods' =>
        rw [hrest] at h
        cases h
        simp [ih ods' hrest]

theorem process_outcomes_fst (router : Router) (m : MongoClient) (p : Option Doc)
    (total : Nat) : ∀ (ods : List OdPair) (i : Nat) (w : World),
    (process_outcomes router m p total ods i w).1 = process_pairs router m p total ods i w := by
  intro ods
  induction ods with
  | nil => intro i w; rfl
  | cons od rest ih =>
    intro i w
    simp only [process_outcomes, process_pairs]
    exact ih (i + 1) _

theorem process_outcomes_errLine (router : Router) (m : MongoClient) (p : Option Doc)
    (total : Nat) : ∀ (ods : List OdPair) (i : Nat) (w : World) (od : OdPair) (e : Err),
    (od, some e) ∈ (process_outcomes router m p total ods i w).2 →
    Event.errLine od.pyStr ∈ (process_outcomes router m p total ods i w).1.events := by
  intro ods
  induction ods with
  | nil =>
    intro i w od e h
    simp [process_outcomes] at h
  | cons od0 rest ih =>
    intro i w od e h
    cases h2 : (crawl_route router od0.o_x od0.o_y od0.d_x od0.d_y m p od0.id
        { w with events := w.events ++ [Event.progress (i + 1) total] }).2 with
    | none =>
      simp only [process_outcomes, h2] at h ⊢
      rcases List.mem_cons.mp h with heq | htl
      · simp at heq
      · exact ih (i + 1) _ od e htl
    | some e0 =>
      simp only [process_outcomes, h2] at h ⊢
      rcases List.mem_cons.mp h with heq | htl
      · have hod : od = od0 := by
          have h1 := congrArg Prod.fst heq
          simpa using h1
        subst hod
        rw [process_outcomes_fst]
        obtain ⟨Δ, hΔ, -⟩ := process_pairs_trace router m p total rest (i + 1)
          { (crawl_route router od.o_x od.o_y od.d_x od.d_y m p od.id
              { w with events := w.events ++ [Event.progress (i + 1) total] }).1 with
            events := ((crawl_route router od.o_x od.o_y od.d_x od.d_y m p od.id
              { w with events := w.events ++ [Event.progress (i + 1) total] }).1).events
              ++ [Event.errLine od.pyStr] }
        rw [hΔ]
        simp
      · exact ih (i + 1) _ od e htl

/-- C2: if the provider capability returns no result (`None`) for an OD
pair, the crawl step persists a document containing exactly the two
fields `date` and `cid` and no other fields — the absence of a path is a
storable outcome, not an error (the step returns without raising). -/
theorem c2_empty_result_persists_exactly_date_cid
    (router : Router) (sx sy tx ty : Coord) (m : MongoClient) (p : Option Doc)
    (cid : Int) (w : World)
    (hfind : (router.find_path sx sy tx ty p w.now).result = Except.ok none)
    (hins : m.insert_err "pathman" router.className
      [("date", Value.vdate (w.now + (router.find_path sx sy tx ty p w.now).elapsed)),
       ("cid", Value.vint cid)]
      (w.now + (router.find_path sx sy tx ty p w.now).elapsed) = none) :
    crawl_route router sx sy tx ty m p cid w =
      ({ now := w.now + (router.find_path sx sy tx ty p w.now).elapsed,
         events := w.events ++
           [Event.findPath sx sy tx ty p,
            Event.insert "pathman" router.className
              [("date", Value.vdate (w.now + (router.find_path sx sy tx ty p w.now).elapsed)),
               ("cid", Value.vint cid)]] }, none) := by
  rw [crawl_route_of_find_ok hfind]
  rw [save_route_to_of_ok hins]
  simp
  rfl

/-- C2 witness: a concrete no-result provider with a healthy sink yields
exactly the two-field document. -/
theorem c2_witness :
    crawl_route noneRouter 13 52 14 53 okMongo none 1 sampleW0 =
      ({ now := 101,
         events := [Event.findPath 13 52 14 53 none,
           Event.insert "pathman" "MapboxRouter"
             [("date", Value.vdate 101), ("cid", Value.vint 1)]] }, none) :=
  c2_empty_result_persists_exactly_date_cid noneRouter 13 52 14 53 okMongo none 1 sampleW0
    rfl rfl

/-- C3: every document persisted by the crawl step carries `cid` equal
to the originating OD pair id and `date` equal to a UTC timestamp taken
at or after the start of the provider invocation, whatever the provider
returned. -/
theorem c3_persisted_doc_carries_date_and_cid
    (router : Router) (sx sy tx ty : Coord) (m : MongoClient) (p : Option Doc)
    (cid : Int) (w w' : World) (eo : Option Err)
    (h : crawl_route router sx sy tx ty m p cid w = (w', eo)) :
    ∀ db cn d, Event.insert db cn d ∈ w'.events →
      Event.insert db cn d ∈ w.events ∨
      (Doc.get? d "cid" = some (Value.vint cid) ∧
       ∃ t, Doc.get? d "date" = some (Value.vdate t) ∧ w.now ≤ t) := by
  intro db cn d hmem
  obtain ⟨tail, htail, -, -, hins⟩ :=
    crawl_route_trace router sx sy tx ty m p cid w
  have hw' : w'.events = w.events ++ Event.findPath sx sy tx ty p :: tail := by
    rw [← htail, h]
  rw [hw'] at hmem
  rcases List.mem_append.mp hmem with hleft | hright
  · exact Or.inl hleft
  · rcases List.mem_cons.mp hright with habs | htl
    · cases habs
    · obtain ⟨-, -, hcid, ht⟩ := hins db cn d htl
      exact Or.inr ⟨hcid, ht⟩

/-- C3 witness: for a provider that returns a route document, the newly
persisted document carries the stamped `cid` and a `date` not earlier
than the invocation start. -/
theorem c3_witness :
    Event.insert "pathman" "MapboxRouter"
        [("distance", Value.vint 1200), ("date", Value.vdate 101), ("cid", Value.vint 1)]
      ∈ ([] : List Event) ∨
    (Doc.get? [("distance", Value.vint 1200), ("date", Value.vdate 101), ("cid", Value.vint 1)]
        "cid" = some (Value.vint 1) ∧
     ∃ t, Doc.get? [("distance", Value.vint 1200), ("date", Value.vdate 101),
        ("cid", Value.vint 1)] "date" = some (Value.vdate t) ∧ 100 ≤ t) :=
  c3_persisted_doc_carries_date_and_cid okRouter 13 52 14 53 okMongo none 1 sampleW0
    ({ now := 101,
       events := [Event.findPath 13 52 14 53 none,
         Event.insert "pathman" "MapboxRouter"
           [("distance", Value.vint 1200), ("date", Value.vdate 101), ("cid", Value.vint 1)]] })
    none rfl "pathman" "MapboxRouter"
    [("distance", Value.vint 1200), ("date", Value.vdate 101), ("cid", Value.vint 1)]
    (by decide)

/-- C4: a crawl invocation only appends to the trace; every document it
persists lands in the fixed logical database `pathman`, in the single
collection named after the provider implementation class; and a
successful invocation appends exactly one new document unconditionally
(no dedup, no upsert), so repeated invocations accumulate in that same
collection. -/
theorem c4_collection_per_provider_append_only
    (router : Router) (sx sy tx ty : Coord) (m : MongoClient) (p : Option Doc)
    (cid : Int) (w w' : World) (eo : Option Err)
    (h : crawl_route router sx sy tx ty m p cid w = (w', eo)) :
    (∃ Δ, w'.events = w.events ++ Δ) ∧
    (∀ db cn d, Event.insert db cn d ∈ w'.events →
       Event.insert db cn d ∈ w.events ∨ (db = "pathman" ∧ cn = router.className)) ∧
    (eo = none →
       ∃ d, insertEvents w'.events
         = insertEvents w.events ++ [("pathman", router.className, d)]) := by
  cases hres : (router.find_path sx sy tx ty p w.now).result with
  | error e =>
    rw [crawl_route_of_find_err hres] at h
    injection h with h1 h2
    subst h1
    subst h2
    refine ⟨⟨[Event.findPath sx sy tx ty p], rfl⟩, ?_, ?_⟩
    · intro db cn d hmem
      rcases List.mem_append.mp hmem with hleft | hright
      · exact Or.inl hleft
      · rw [List.mem_singleton] at hright
        cases hright
    · intro habs
      exact Option.noConfusion habs
  | ok r =>
    rw [crawl_route_of_find_ok hres] at h
    cases hins : m.insert_err "pathman" router.className
        (Doc.set
          (Doc.set (r.getD []) "date"
            (Value.vdate (w.now + (router.find_path sx sy tx ty p w.now).elapsed)))
          "cid" (Value.vint cid))
        (w.now + (router.find_path sx sy tx ty p w.now).elapsed) with
    | some e =>
      rw [save_route_to_of_err hins] at h
      injection h with h1 h2
      subst h1
      subst h2
      refine ⟨⟨[Event.findPath sx sy tx ty p], rfl⟩, ?_, ?_⟩
      · intro db cn d hmem
        rcases List.mem_append.mp hmem with hleft | hright
        · exact Or.inl hleft
        · rw [List.mem_singleton] at hright
          cases hright
      · intro habs
        exact Option.noConfusion habs
    | none =>
      rw [save_route_to_of_ok hins] at h
      injection h with h1 h2
      subst h1
      subst h2
      refine ⟨⟨[Event.findPath sx sy tx ty p] ++
        [Event.insert "pathman" router.className
          (Doc.set
            (Doc.set (r.getD []) "date"
              (Value.vdate (w.now + (router.find_path sx sy tx ty p w.now).elapsed)))
            "cid" (Value.vint cid))], by simp⟩, ?_, ?_⟩
      · intro db cn d hmem
        rcases List.mem_append.mp hmem with hleft | hright
        · rcases List.mem_append.mp hleft with hll | hlr
          · exact Or.inl hll
          · rw [List.mem_singleton] at hlr
            cases hlr
        · rw [List.mem_singleton] at hright
          cases hright
          exact Or.inr ⟨rfl, rfl⟩
      · intro _
        refine ⟨Doc.set
          (Doc.set (r.getD []) "date"
            (Value.vdate (w.now + (router.find_path sx sy tx ty p w.now).elapsed)))
          "cid" (Value.vint cid), ?_⟩
        simp [insertEvents]

/-- C4 witness: a concrete successful crawl appends exactly one document
to the `pathman` database, collection `MapboxRouter`. -/
theorem c4_witness :
    (∃ Δ, (World.mk 101
      [Event.findPath 13 52 14 53 none,
       Event.insert "pathman" "MapboxRouter"
         [("distance", Value.vint 1200), ("date", Value.vdate 101), ("cid", Value.vint 1)]]).events
      = sampleW0.events ++ Δ) ∧
    (∀ db cn d, Event.insert db cn d ∈ (World.mk 101
      [Event.findPath 13 52 14 53 none,
       Event.insert "pathman" "MapboxRouter"
         [("distance", Value.vint 1200), ("date", Value.vdate 101), ("cid", Value.vint 1)]]).events →
       Event.insert db cn d ∈ sampleW0.events ∨ (db = "pathman" ∧ cn = okRouter.className)) ∧
    ((none : Option Err) = none →
       ∃ d, insertEvents (World.mk 101
         [Event.findPath 13 52 14 53 none,
          Event.insert "pathman" "MapboxRouter"
            [("distance", Value.vint 1200), ("date", Value.vdate 101), ("cid", Value.vint 1)]]).events
         = insertEvents sampleW0.events ++ [("pathman", okRouter.className, d)]) :=
  c4_collection_per_provider_append_only okRouter 13 52 14 53 okMongo none 1 sampleW0
    ({ now := 101,
       events := [Event.findPath 13 52 14 53 none,
         Event.insert "pathman" "MapboxRouter"
           [("distance", Value.vint 1200), ("date", Value.vdate 101), ("cid", Value.vint 1)]] })
    none rfl

/-- C7: the crawl step performs no retry and no suppression — if the
provider raises, or the provider succeeds and the sink insert raises,
the very same exception is returned to the caller, no document insert is
recorded, and exactly one `find_path` attempt was made. -/
theorem c7_crawl_propagates_exceptions_uncaught
    (router : Router) (sx sy tx ty : Coord) (m : MongoClient) (p : Option Doc)
    (cid : Int) (w : World) (e : Err)
    (h : (router.find_path sx sy tx ty p w.now).result = Except.error e
       ∨ ∃ r, (router.find_path sx sy tx ty p w.now).result = Except.ok r
          ∧ m.insert_err "pathman" router.className
              (Doc.set
                (Doc.set (r.getD []) "date"
                  (Value.vdate (w.now + (router.find_path sx sy tx ty p w.now).elapsed)))
                "cid" (Value.vint cid))
              (w.now + (router.find_path sx sy tx ty p w.now).elapsed) = some e) :
    (crawl_route router sx sy tx ty m p cid w).2 = some e ∧
    insertEvents ((crawl_route router sx sy tx ty m p cid w).1.events)
      = insertEvents w.events ∧
    ((crawl_route router sx sy tx ty m p cid w).1).events
      = w.events ++ [Event.findPath sx sy tx ty p] := by
  rcases h with herr | ⟨r, hok, hins⟩
  · rw [crawl_route_of_find_err herr]
    refine ⟨rfl, ?_, rfl⟩
    simp [insertEvents]
  · rw [crawl_route_of_find_ok hok, save_route_to_of_err hins]
    refine ⟨rfl, ?_, rfl⟩
    simp [insertEvents]

/-- C7 witness: a concrete provider timeout is returned to the caller
unchanged and nothing is persisted. -/
theorem c7_witness :
    (crawl_route errRouter 13 52 14 53 okMongo none 1 sampleW0).2 = some "Timeout" ∧
    insertEvents ((crawl_route errRouter 13 52 14 53 okMongo none 1 sampleW0).1.events)
      = insertEvents sampleW0.events ∧
    ((crawl_route errRouter 13 52 14 53 okMongo none 1 sampleW0).1).events
      = sampleW0.events ++ [Event.findPath 13 52 14 53 none] :=
  c7_crawl_propagates_exceptions_uncaught errRouter 13 52 14 53 okMongo none 1 sampleW0
    "Timeout" (Or.inl rfl)

/-- C10 (implicit): if the provider-returned document already carries
`date` or `cid` fields, the crawl step unconditionally overwrites them
with the current UTC timestamp and the OD pair id before persisting, so
the persisted document never retains a provider-chosen `date` or `cid`. -/
theorem c10_enrichment_overwrites_provider_keys
    (router : Router) (sx sy tx ty : Coord) (m : MongoClient) (p : Option Doc)
    (cid : Int) (w : World) (d : Doc) (v0 v1 : Value)
    (hfind : (router.find_path sx sy tx ty p w.now).result = Except.ok (some d))
    (hdate : Doc.get? d "date" = some v0)
    (hcid : Doc.get? d "cid" = some v1)
    (hins : m.insert_err "pathman" router.className
      (Doc.set
        (Doc.set d "date"
          (Value.vdate (w.now + (router.find_path sx sy tx ty p w.now).elapsed)))
        "cid" (Value.vint cid))
      (w.now + (router.find_path sx sy tx ty p w.now).elapsed) = none) :
    crawl_route router sx sy tx ty m p cid w =
      ({ now := w.now + (router.find_path sx sy tx ty p w.now).elapsed,
         events := w.events ++
           [Event.findPath sx sy tx ty p,
            Event.insert "pathman" router.className
              (Doc.set
                (Doc.set d "date"
                  (Value.vdate (w.now + (router.find_path sx sy tx ty p w.now).elapsed)))
                "cid" (Value.vint cid))] }, none) ∧
    Doc.get?
      (Doc.set
        (Doc.set d "date"
          (Value.vdate (w.now + (router.find_path sx sy tx ty p w.now).elapsed)))
        "cid" (Value.vint cid)) "date"
      = some (Value.vdate (w.now + (router.find_path sx sy tx ty p w.now).elapsed)) ∧
    Doc.get?
      (Doc.set
        (Doc.set d "date"
          (Value.vdate (w.now + (router.find_path sx sy tx ty p w.now).elapsed)))
        "cid" (Value.vint cid)) "cid"
      = some (Value.vint cid) := by
  refine ⟨?_, ?_, ?_⟩
  · rw [crawl_route_of_find_ok hfind]
    rw [save_route_to_of_ok hins]
    simp
  · rw [Doc.get_set_of_ne _ "cid" "date" _ (by decide)]
    exact Doc.get_set_self _ "date" _
  · exact Doc.get_set_self _ "cid" _

/-- C10 witness: a provider document carrying its own `date` and `cid`
is persisted with both fields replaced by the stamp. -/
theorem c10_witness :
    crawl_route dirtyRouter 13 52 14 53 okMongo none 1 sampleW0 =
      ({ now := 101,
         events := [Event.findPath 13 52 14 53 none,
           Event.insert "pathman" "MapboxRouter"
             [("date", Value.vdate 101), ("cid", Value.vint 1), ("distance", Value.vint 5)]] },
       none) ∧
    Doc.get? [("date", Value.vdate 101), ("cid", Value.vint 1), ("distance", Value.vint 5)]
      "date" = some (Value.vdate 101) ∧
    Doc.get? [("date", Value.vdate 101), ("cid", Value.vint 1), ("distance", Value.vint 5)]
      "cid" = some (Value.vint 1) :=
  c10_enrichment_overwrites_provider_keys dirtyRouter 13 52 14 53 okMongo none 1 sampleW0
    dirtyRouteDoc (Value.vstr "provider-date") (Value.vint 99) rfl rfl rfl rfl

theorem row_to_od_ok_fields (pyInt : String → Option Int) (pyFloat : String → Option Coord)
    (r : Row) (od : OdPair) (h : row_to_od pyInt pyFloat r = Except.ok od) :
    (∃ s, Row.get? r "id" = some s ∧ pyInt s = some od.id) ∧
    (∃ s, Row.get? r "start_lon" = some s ∧ pyFloat s = some od.o_x) ∧
    (∃ s, Row.get? r "start_lat" = some s ∧ pyFloat s = some od.o_y) ∧
    (∃ s, Row.get? r "end_lon" = some s ∧ pyFloat s = some od.d_x) ∧
    (∃ s, Row.get? r "end_lat" = some s ∧ pyFloat s = some od.d_y) := by
  simp only [row_to_od] at h
  cases h1 : Row.get? r "id" with
  | none => simp only [h1] at h; exact Except.noConfusion h
  | some sid =>
  simp only [h1] at h
  cases h2 : pyInt sid with
  | none => simp only [h2] at h; exact Except.noConfusion h
  | some vid =>
  simp only [h2] at h
  cases h3 : Row.get? r "start_lon" with
  | none => simp only [h3] at h; exact Except.noConfusion h
  | some s1 =>
  simp only [h3] at h
  cases h4 : pyFloat s1 with
  | none => simp only [h4] at h; exact Except.noConfusion h
  | some ox =>
  simp only [h4] at h
  cases h5 : Row.get? r "start_lat" with
  | none => simp only [h5] at h; exact Except.noConfusion h
  | some s2 =>
  simp only [h5] at h
  cases h6 : pyFloat s2 with
  | none => simp only [h6] at h; exact Except.noConfusion h
  | some oy =>
  simp only [h6] at h
  cases h7 : Row.get? r "end_lon" with
  | none => simp only [h7] at h; exact Except.noConfusion h
  | some s3 =>
  simp only [h7] at h
  cases h8 : pyFloat s3 with
  | none => simp only [h8] at h; exact Except.noConfusion h
  | some dx =>
  simp only [h8] at h
  cases h9 : Row.get? r "end_lat" with
  | none => simp only [h9] at h; exact Except.noConfusion h
  | some s4 =>
  simp only [h9] at h
  cases h10 : pyFloat s4 with
  | none => simp only [h10] at h; exact Except.noConfusion h
  | some dy =>
  simp only [h10] at h
  injection h with hh
  subst hh
  exact ⟨⟨sid, rfl, h2⟩, ⟨s1, rfl, h4⟩, ⟨s2, rfl, h6⟩, ⟨s3, rfl, h8⟩, ⟨s4, rfl, h10⟩⟩

theorem row_to_od_error_of_bad_field (pyInt : String → Option Int)
    (pyFloat : String → Option Coord) (r : Row)
    (hbad : Row.get? r "id" = none ∨ (∃ s, Row.get? r "id" = some s ∧ pyInt s = none)
      ∨ Row.get? r "start_lon" = none
      ∨ (∃ s, Row.get? r "start_lon" = some s ∧ pyFloat s = none)
      ∨ Row.get? r "start_lat" = none
      ∨ (∃ s, Row.get? r "start_lat" = some s ∧ pyFloat s = none)
      ∨ Row.get? r "end_lon" = none
      ∨ (∃ s, Row.get? r "end_lon" = some s ∧ pyFloat s = none)
      ∨ Row.get? r "end_lat" = none
      ∨ (∃ s, Row.get? r "end_lat" = some s ∧ pyFloat s = none)) :
    ∃ e, row_to_od pyInt pyFloat r = Except.error e := by
  cases hall : row_to_od pyInt pyFloat r with
  | error e => exact ⟨e, rfl⟩
  | ok od =>
    exfalso
    obtain ⟨⟨si, hsi, hpi⟩, ⟨s1, hs1, hp1⟩, ⟨s2, hs2, hp2⟩, ⟨s3, hs3, hp3⟩, ⟨s4, hs4, hp4⟩⟩ :=
      row_to_od_ok_fields pyInt pyFloat r od hall
    rcases hbad with hb | ⟨s, hs, hp⟩ | hb | ⟨s, hs, hp⟩ | hb | ⟨s, hs, hp⟩
      | hb | ⟨s, hs, hp⟩ | hb | ⟨s, hs, hp⟩
    · rw [hb] at hsi; exact Option.noConfusion hsi
    · rw [hs] at hsi; injection hsi with hss; rw [← hss] at hpi; rw [hp] at hpi
      exact Option.noConfusion hpi
    · rw [hb] at hs1; exact Option.noConfusion hs1
    · rw [hs] at hs1; injection hs1 with hss; rw [← hss] at hp1; rw [hp] at hp1
      exact Option.noConfusion hp1
    · rw [hb] at hs2; exact Option.noConfusion hs2
    · rw [hs] at hs2; injection hs2 with hss; rw [← hss] at hp2; rw [hp] at hp2
      exact Option.noConfusion hp2
    · rw [hb] at hs3; exact Option.noConfusion hs3
    · rw [hs] at hs3; injection hs3 with hss; rw [← hss] at hp3; rw [hp] at hp3
      exact Option.noConfusion hp3
    · rw [hb] at hs4; exact Option.noConfusion hs4
    · rw [hs] at hs4; injection hs4 with hss; rw [← hss] at hp4; rw [hp] at hp4
      exact Option.noConfusion hp4

theorem load_od_pairs_error_of_mem (pyInt : String → Option Int)
    (pyFloat : String → Option Coord) :
    ∀ (rows : List Row) (r : Row) (e : Err), r ∈ rows →
    row_to_od pyInt pyFloat r = Except.error e →
    ∃ e0, load_od_pairs pyInt pyFloat rows = Except.error e0 := by
  intro rows
  induction rows with
  | nil =>
    intro r e hmem _
    cases hmem
  | cons r0 rest ih =>
    intro r e hmem herr
    rcases List.mem_cons.mp hmem with heq | htl
    · subst heq
      refine ⟨e, ?_⟩
      simp only [load_od_pairs, herr]
    · cases h0 : row_to_od pyInt pyFloat r0 with
      | error e0 =>
        refine ⟨e0, ?_⟩
        simp only [load_od_pairs, h0]
      | ok od0 =>
        obtain ⟨e0, hrest⟩ := ih r e htl herr
        refine ⟨e0, ?_⟩
        simp only [load_od_pairs, h0, hrest]

/-- C5: selecting a router name or a profile name that is not listed in
the configuration makes `validate_arguments` fail, and the whole run
terminates during setup with the world untouched — no provider call, no
insert, no record processed. -/
theorem c5_invalid_selection_fails_before_any_call
    (env : Env) (raw : Args) (w0 : World)
    (h : pyLower raw.r ∉ env.appconf.routers ∨ pyLower raw.p ∉ env.appconf.profiles) :
    (∃ e, validate_arguments env.fs raw env.appconf = Except.error e) ∧
    (∃ e, Pathman.main env raw w0 = (w0, some e)) := by
  have hval : ∃ e, validate_arguments env.fs raw env.appconf = Except.error e := by
    rcases h with hr | hp
    · refine ⟨"ROUTER should be one of " ++ String.intercalate ", " env.appconf.routers, ?_⟩
      simp only [validate_arguments]
      rw [if_neg hr]
    · by_cases hr : pyLower raw.r ∈ env.appconf.routers
      · refine ⟨"PROFILE should be one of " ++ String.intercalate ", " env.appconf.profiles, ?_⟩
        simp only [validate_arguments]
        rw [if_pos hr, if_neg hp]
      · refine ⟨"ROUTER should be one of " ++ String.intercalate ", " env.appconf.routers, ?_⟩
        simp only [validate_arguments]
        rw [if_neg hr]
  obtain ⟨e, he⟩ := hval
  refine ⟨⟨e, he⟩, ⟨e, ?_⟩⟩
  simp only [Pathman.main, he]

/-- C5 witness: selecting the unconfigured router `google` fails during
setup leaving the initial world unchanged. -/
theorem c5_witness :
    (∃ e, validate_arguments sampleEnv.fs badRouterArgs sampleEnv.appconf = Except.error e) ∧
    (∃ e, Pathman.main sampleEnv badRouterArgs sampleW0 = (sampleW0, some e)) :=
  c5_invalid_selection_fails_before_any_call sampleEnv badRouterArgs sampleW0
    (Or.inl (by decide))

/-- C6: a CSV row with a missing required field or an unparsable numeric
field makes the input load fail; the exception propagates (no
partial-row recovery), the whole load aborts and the batch never starts:
`main` terminates with the initial world unchanged, so there are zero
crawl attempts. -/
theorem c6_malformed_row_aborts_load_before_batch
    (env : Env) (raw : Args) (w0 : World) (args : Args) (content : String)
    (hv : validate_arguments env.fs raw env.appconf = Except.ok args)
    (hf : env.fs args.i = some content)
    (hbad : ∃ r ∈ env.csvOf content,
      Row.get? r "id" = none ∨ (∃ s, Row.get? r "id" = some s ∧ env.pyInt s = none)
      ∨ Row.get? r "start_lon" = none
      ∨ (∃ s, Row.get? r "start_lon" = some s ∧ env.pyFloat s = none)
      ∨ Row.get? r "start_lat" = none
      ∨ (∃ s, Row.get? r "start_lat" = some s ∧ env.pyFloat s = none)
      ∨ Row.get? r "end_lon" = none
      ∨ (∃ s, Row.get? r "end_lon" = some s ∧ env.pyFloat s = none)
      ∨ Row.get? r "end_lat" = none
      ∨ (∃ s, Row.get? r "end_lat" = some s ∧ env.pyFloat s = none)) :
    ∃ e, load_od_pairs env.pyInt env.pyFloat (env.csvOf content) = Except.error e
      ∧ Pathman.main env raw w0 = (w0, some e) := by
  obtain ⟨r, hmem, hb⟩ := hbad
  obtain ⟨e1, herr⟩ := row_to_od_error_of_bad_field env.pyInt env.pyFloat r hb
  obtain ⟨e0, hload⟩ :=
    load_od_pairs_error_of_mem env.pyInt env.pyFloat (env.csvOf content) r e1 hmem herr
  refine ⟨e0, hload, ?_⟩
  simp only [Pathman.main, hv, hf, hload]

/-- C6 witness: a concrete input whose second row lacks the `id` column
aborts the load and the run before any record is attempted. -/
theorem c6_witness :
    ∃ e, load_od_pairs badCsvEnv.pyInt badCsvEnv.pyFloat (badCsvEnv.csvOf "CSVDATA")
        = Except.error e
      ∧ Pathman.main badCsvEnv sampleArgs sampleW0 = (sampleW0, some e) :=
  c6_malformed_row_aborts_load_before_batch badCsvEnv sampleArgs sampleW0 sampleArgs
    "CSVDATA" rfl rfl ⟨rowMissingId, by decide, Or.inl rfl⟩

/-- C1: once setup and load succeed, `main` runs the per-record loop on
the loaded OD pairs and completes; the trace then contains exactly one
new `find_path` attempt per loaded OD pair, in input order, and the
number of new attempts equals the number of CSV data rows — for every
router and sink behaviour, so per-record failures never reduce the
number of attempts (the per-record exception is caught at the loop
boundary and the remaining records are still attempted). -/
theorem c1_one_crawl_attempt_per_row_in_order
    (env : Env) (raw : Args) (w0 : World) (args : Args) (content : String)
    (ods : List OdPair) (params : Option Doc)
    (hv : validate_arguments env.fs raw env.appconf = Except.ok args)
    (hf : env.fs args.i = some content)
    (hl : load_od_pairs env.pyInt env.pyFloat (env.csvOf content) = Except.ok ods)
    (hp : load_params env args.x = Except.ok params) :
    Pathman.main env raw w0
      = (process_pairs (env.factory args.r args.p) (env.mongoOf args.o) params
          ods.length ods 0 w0, none) ∧
    findPathEvents ((Pathman.main env raw w0).1.events)
      = findPathEvents w0.events
        ++ ods.map (fun od => (od.o_x, od.o_y, od.d_x, od.d_y, params)) ∧
    (findPathEvents ((Pathman.main env raw w0).1.events)).length
      = (findPathEvents w0.events).length + (env.csvOf content).length := by
  have hmain : Pathman.main env raw w0
      = (process_pairs (env.factory args.r args.p) (env.mongoOf args.o) params
          ods.length ods 0 w0, none) := by
    simp only [Pathman.main, hv, hf, hl, hp]
  have hfst : (Pathman.main env raw w0).1
      = process_pairs (env.factory args.r args.p) (env.mongoOf args.o) params
          ods.length ods 0 w0 := by
    rw [hmain]
  obtain ⟨Δ, hΔ, hfp⟩ := process_pairs_trace (env.factory args.r args.p)
    (env.mongoOf args.o) params ods.length ods 0 w0
  refine ⟨hmain, ?_, ?_⟩
  · rw [hfst, hΔ, findPathEvents_append, hfp]
  · rw [hfst, hΔ, findPathEvents_append, hfp, List.length_append, List.length_map,
      load_od_pairs_length env.pyInt env.pyFloat (env.csvOf content) ods hl]

/-- C1 witness: the sample two-row run attempts both pairs and
completes. -/
theorem c1_witness :
    Pathman.main sampleEnv sampleArgs sampleW0
      = (process_pairs okRouter okMongo (some sampleParamsDoc) 2 [odA, odB] 0 sampleW0,
         none) :=
  (c1_one_crawl_attempt_per_row_in_order sampleEnv sampleArgs sampleW0 sampleArgs
    "CSVDATA" [odA, odB] (some sampleParamsDoc) rfl rfl rfl rfl).1

/-- C8: the batch loop only appends to the trace (so the error log is
append-only and lines from earlier runs are preserved), and for every OD
pair whose crawl step raised, the full textual representation `str(od)`
is appended as one line to the error log; the loop continues afterwards
(its observable run is exactly the source loop `process_pairs`). -/
theorem c8_failing_pairs_logged_append_only
    (router : Router) (m : MongoClient) (p : Option Doc) (total : Nat)
    (ods : List OdPair) (i : Nat) (w : World) :
    (process_outcomes router m p total ods i w).1 = process_pairs router m p total ods i w ∧
    (∃ Δ, ((process_outcomes router m p total ods i w).1).events = w.events ++ Δ) ∧
    (∀ od e, (od, some e) ∈ (process_outcomes router m p total ods i w).2 →
       Event.errLine od.pyStr ∈ ((process_outcomes router m p total ods i w).1).events) ∧
    (∀ s, Event.errLine s ∈ w.events →
       Event.errLine s ∈ ((process_outcomes router m p total ods i w).1).events) := by
  obtain ⟨Δ, hΔ, -⟩ := process_pairs_trace router m p total ods i w
  refine ⟨process_outcomes_fst router m p total ods i w, ⟨Δ, ?_⟩,
    process_outcomes_errLine router m p total ods i w, ?_⟩
  · rw [process_outcomes_fst]
    exact hΔ
  · intro s hs
    rw [process_outcomes_fst, hΔ]
    exact List.mem_append.mpr (Or.inl hs)

/-- C8 witness: with a provider that times out, the failing OD pair's
textual representation is in the error log after the run. -/
theorem c8_witness :
    Event.errLine odA.pyStr
      ∈ ((process_outcomes errRouter okMongo none 1 [odA] 0 sampleW0).1).events :=
  (c8_failing_pairs_logged_append_only errRouter okMongo none 1 [odA] 0 sampleW0).2.2.1
    odA "Timeout" (by decide)

/-- C9: the parameter loader returns the sentinel `None` when no
parameters path is given, returns the parsed document when the file
parses, fails when the content is not valid JSON; and, in a completed
run, every new `find_path` invocation received exactly the loaded
parameters value. -/
theorem c9_params_sentinel_and_shared_unmodified
    (env : Env) (raw : Args) (w0 : World) (args : Args) (content : String)
    (ods : List OdPair) (params : Option Doc)
    (hv : validate_arguments env.fs raw env.appconf = Except.ok args)
    (hf : env.fs args.i = some content)
    (hl : load_od_pairs env.pyInt env.pyFloat (env.csvOf content) = Except.ok ods)
    (hp : load_params env args.x = Except.ok params) :
    load_params env none = Except.ok none ∧
    (∀ path c2 d, env.fs path = some c2 → env.jsonOf c2 = some d →
       load_params env (some path) = Except.ok (some d)) ∧
    (∀ path c2, env.fs path = some c2 → env.jsonOf c2 = none →
       load_params env (some path)
         = Except.error "ParamsLoadError: json.JSONDecodeError") ∧
    (∀ a b c d q, (a, b, c, d, q) ∈ findPathEvents ((Pathman.main env raw w0).1.events) →
       (a, b, c, d, q) ∈ findPathEvents w0.events ∨ q = params) := by
  have hmain : Pathman.main env raw w0
      = (process_pairs (env.factory args.r args.p) (env.mongoOf args.o) params
          ods.length ods 0 w0, none) := by
    simp only [Pathman.main, hv, hf, hl, hp]
  have hfst : (Pathman.main env raw w0).1
      = process_pairs (env.factory args.r args.p) (env.mongoOf args.o) params
          ods.length ods 0 w0 := by
    rw [hmain]
  obtain ⟨Δ, hΔ, hfp⟩ := process_pairs_trace (env.factory args.r args.p)
    (env.mongoOf args.o) params ods.length ods 0 w0
  refine ⟨rfl, ?_, ?_, ?_⟩
  · intro path c2 d h1 h2
    simp only [load_params, h1, h2]
  · intro path c2 h1 h2
    simp only [load_params, h1, h2]
  · intro a b c d q hm
    rw [hfst, hΔ, findPathEvents_append] at hm
    rcases List.mem_append.mp hm with hl0 | hr0
    · exact Or.inl hl0
    · rw [hfp] at hr0
      obtain ⟨od, -, heq⟩ := List.mem_map.mp hr0
      right
      have hq := congrArg (fun t : Coord × Coord × Coord × Coord × Option Doc => t.2.2.2.2) heq
      simpa using hq.symm

/-- C9 witness: in the sample run the recorded `find_path` call carries
exactly the loaded parameters document. -/
theorem c9_witness :
    ((13 : Coord), (52 : Coord), (14 : Coord), (53 : Coord), some sampleParamsDoc)
        ∈ findPathEvents sampleW0.events
      ∨ some sampleParamsDoc = some sampleParamsDoc :=
  (c9_params_sentinel_and_shared_unmodified sampleEnv sampleArgs sampleW0 sampleArgs
    "CSVDATA" [odA, odB] (some sampleParamsDoc) rfl rfl rfl rfl).2.2.2
    13 52 14 53 (some sampleParamsDoc) (by decide)
